import Mathlib

/-!
Verification of the scans-validator-api gateway (src/src/main.rs): a shallow
embedding of its data model, route handlers and fetcher functions, together
with theorems settling the frozen claims about its specification.

External collaborators (the reqwest HTTP client, the Solana RPC client, the
signature / public-key parsers from solana_sdk, and the process environment)
are modelled as oracle parameters: a handler's behaviour is a pure function
of the request input and of what those oracles answer.
-/

namespace ScansValidator

/-- serde_json::Value — the opaque JSON documents passed through by the
gateway.  The gateway never inspects payloads, it only wraps them. -/
inductive Value where
  | null
  | bool (b : Bool)
  | num (n : Int)
  | str (s : String)
  | arr (elems : List Value)
  | obj (fields : List (String × Value))

/-- `struct ApiResponse` (main.rs:12-17): the uniform reply envelope with
numeric status code, human-readable message and optional JSON payload. -/
structure ApiResponse where
  status_code : Nat
  message : String
  data : Option Value

/-- An HTTP reply from one of the four scan/transaction routes: the HTTP
status line together with the JSON-serialised `ApiResponse` body. -/
structure EnvelopeResponse where
  status : Nat
  body : ApiResponse

/-- The process environment (`std::env::var`), as a partial map from
variable names to values; `none` means the variable is unset. -/
def Env : Type := String → Option String

/-- An upstream HTTP world for `reqwest::get(url).json::<Value>()`: for each
URL, either the parsed JSON body, or the textual description of the error
(network failure or non-JSON body).  `Except.error e` covers both `?`
operators on main.rs:113. -/
def Upstream : Type := String → Except String Value

/-- URL built by `get_ethereum_transaction` (main.rs:109-112). -/
def ethereum_tx_url (tx_hash api_key : String) : String :=
  "https://api.etherscan.io/api?module=proxy&action=eth_getTransactionByHash&txhash="
    ++ tx_hash ++ "&apikey=" ++ api_key

/-- URL built by `get_polygon_transaction` (main.rs:118-121). -/
def polygon_tx_url (tx_hash api_key : String) : String :=
  "https://api.polygonscan.com/api?module=proxy&action=eth_getTransactionByHash&txhash="
    ++ tx_hash ++ "&apikey=" ++ api_key

/-- URL built by `get_bsc_transaction` (main.rs:127-130). -/
def bsc_tx_url (tx_hash api_key : String) : String :=
  "https://api.bscscan.com/api?module=proxy&action=eth_getTransactionByHash&txhash="
    ++ tx_hash ++ "&apikey=" ++ api_key

/-- Spec-side definition (for claim C4): the query shape the spec says all
three chain-explorer URLs share:
`module=proxy&action=eth_getTransactionByHash&txhash=<hash>&apikey=<key>`. -/
def scan_query_shape (tx_hash api_key : String) : String :=
  "module=proxy&action=eth_getTransactionByHash&txhash=" ++ tx_hash
    ++ "&apikey=" ++ api_key

/-- `get_ethereum_transaction` (main.rs:108-115): build the Etherscan URL,
issue the GET, parse the body as JSON — an oracle query at that URL. -/
def get_ethereum_transaction (up : Upstream) (tx_hash api_key : String) :
    Except String Value :=
  up (ethereum_tx_url tx_hash api_key)

/-- `get_polygon_transaction` (main.rs:117-124). -/
def get_polygon_transaction (up : Upstream) (tx_hash api_key : String) :
    Except String Value :=
  up (polygon_tx_url tx_hash api_key)

/-- `get_bsc_transaction` (main.rs:126-133). -/
def get_bsc_transaction (up : Upstream) (tx_hash api_key : String) :
    Except String Value :=
  up (bsc_tx_url tx_hash api_key)

/-- `get_ethereum` route handler (main.rs:19-36).  `none` models the
`expect` panic when `ETHERSCAN_API_KEY` is unset: request handling aborts
abruptly and no envelope is produced. -/
def get_ethereum (env : Env) (up : Upstream) (path : String) :
    Option EnvelopeResponse :=
  match env "ETHERSCAN_API_KEY" with
  | none => none
  | some etherscan_api_key =>
    match get_ethereum_transaction up path etherscan_api_key with
    | .ok data =>
      some ⟨200, ⟨200, "Ethereum Transaction found", some data⟩⟩
    | .error e => some ⟨500, ⟨500, e, none⟩⟩

/-- `get_polygon` route handler (main.rs:38-55). -/
def get_polygon (env : Env) (up : Upstream) (path : String) :
    Option EnvelopeResponse :=
  match env "POLYGONSCAN_API_KEY" with
  | none => none
  | some polygonscan_api_key =>
    match get_polygon_transaction up path polygonscan_api_key with
    | .ok data =>
      some ⟨200, ⟨200, "Polygon Transaction found", some data⟩⟩
    | .error e => some ⟨500, ⟨500, e, none⟩⟩

/-- `get_bsc` route handler (main.rs:57-73). -/
def get_bsc (env : Env) (up : Upstream) (path : String) :
    Option EnvelopeResponse :=
  match env "BSCSCAN_API_KEY" with
  | none => none
  | some bscscan_api_key =>
    match get_bsc_transaction up path bscscan_api_key with
    | .ok data => some ⟨200, ⟨200, "BSC Transaction found", some data⟩⟩
    | .error e => some ⟨500, ⟨500, e, none⟩⟩

/-- The Solana RPC world for `get_solana_transaction` (main.rs:135-144),
parametric in the library types for signatures (`Sig`) and fetched
transactions (`Tx`):
* `parseSignature` models `Signature::from_str` (error = its description);
* `getTransaction` models `client.get_transaction(...)` run under
  `spawn_blocking` — `Except.error` covers the RPC error, "not found", and
  join failure (both `?` on main.rs:141);
* `toJson` models `serde_json::to_value(transaction)`. -/
structure SolanaRpc (Sig Tx : Type) where
  parseSignature : String → Except String Sig
  getTransaction : Sig → Except String Tx
  toJson : Tx → Except String Value

/-- Outcome of the Solana transaction fetch: the result, plus the number of
RPC calls that were issued on the way (so "fails before any RPC call" is a
statement of the model, not a side remark). -/
structure SolanaTxOutcome where
  result : Except String Value
  rpcCalls : Nat

/-- `get_solana_transaction` (main.rs:135-144): parse the signature string;
on success, one RPC `getTransaction` call, then serialise the result. -/
def get_solana_transaction {Sig Tx : Type} (rpc : SolanaRpc Sig Tx)
    (tx_hash : String) : SolanaTxOutcome :=
  match rpc.parseSignature tx_hash with
  | .error e => ⟨.error e, 0⟩
  | .ok signature =>
    match rpc.getTransaction signature with
    | .error e => ⟨.error e, 1⟩
    | .ok transaction =>
      match rpc.toJson transaction with
      | .error e => ⟨.error e, 1⟩
      | .ok json_transaction => ⟨.ok json_transaction, 1⟩

/-- `get_solana` route handler (main.rs:75-90).  It reads no environment
variable, so it always produces an envelope. -/
def get_solana {Sig Tx : Type} (rpc : SolanaRpc Sig Tx) (path : String) :
    EnvelopeResponse :=
  match (get_solana_transaction rpc path).result with
  | .ok data => ⟨200, ⟨200, "Solana Transaction found", some data⟩⟩
  | .error e => ⟨500, ⟨500, e, none⟩⟩

/-- The Solana RPC world for `get_solana_balances` (main.rs:146-171),
parametric in the library type for public keys (`Pk`):
* `parsePubkey` models `Pubkey::from_str`;
* `getBalance` models `client.get_balance(&public_key)`, answering the
  lamport balance (a u64, embedded as `Nat`; no arithmetic here can
  overflow it). -/
structure BalanceRpc (Pk : Type) where
  parsePubkey : String → Except String Pk
  getBalance : Pk → Except String Nat

/-- Strip trailing `'0'` characters from a string. -/
def dropTrailingZeros (s : String) : String :=
  String.mk ((s.toList.reverse.dropWhile (fun c => c = '0')).reverse)

/-- Rendering of `balance as f64 / 1e9` under `format!("{}", _)`
(main.rs:162-164), as the exact decimal expansion of `lamports / 10^9`:
integer part, then, when the fractional part is non-zero, a point and the
fractional digits with trailing zeros stripped (Rust's `Display` for `f64`
prints no exponent and no trailing zeros, and agrees with the exact
expansion whenever the `f64` division is exact, as it is at every value the
claims mention; for lamport balances large enough that `f64` rounds, the
source would print the rounded value instead). -/
def formatSol (lamports : Nat) : String :=
  let whole := lamports / 1000000000
  let frac := lamports % 1000000000
  if frac = 0 then toString whole
  else
    let fracDigits := toString frac
    let padded :=
      String.mk (List.replicate (9 - fracDigits.length) '0') ++ fracDigits
    toString whole ++ "." ++ dropTrailingZeros padded

/-- The body of the `for public_key_str in public_keys` loop
(main.rs:158-168) for a single key: the formatted entry this key pushes, or
`none` when the key is skipped (parse failure, RPC failure, or zero
balance). -/
def entryFor {Pk : Type} (rpc : BalanceRpc Pk) (public_key_str : String) :
    Option String :=
  match rpc.parsePubkey public_key_str with
  | .error _ => none
  | .ok public_key =>
    match rpc.getBalance public_key with
    | .error _ => none
    | .ok balance =>
      if balance > 0 then
        some (public_key_str ++ ": " ++ formatSol balance ++ " SOL")
      else none

/-- `get_solana_balances` body (main.rs:146-171): walk the keys in order,
pushing each formatted non-zero balance onto `accounts_with_balance`;
the accumulator mirrors the mutable `Vec` of the source. -/
def get_solana_balances {Pk : Type} (rpc : BalanceRpc Pk)
    (public_keys : List String) : List String :=
  go public_keys []
where
  /-- The loop with the `Vec` built so far. -/
  go : List String → List String → List String
    | [], accounts_with_balance => accounts_with_balance
    | public_key_str :: rest, accounts_with_balance =>
      match entryFor rpc public_key_str with
      | some entry => go rest (accounts_with_balance ++ [entry])
      | none => go rest accounts_with_balance

/-- Number of binary digits of `n`, with explicit recursion fuel; 64 units
of fuel are enough for any u64 lamport balance. -/
def bitLenAux : ℕ → ℕ → ℕ
  | _, 0 => 0
  | 0, _ => 0
  | fuel + 1, n => bitLenAux fuel (n / 2) + 1

/-- Number of binary digits of a u64 value. -/
def bitLen (n : ℕ) : ℕ := bitLenAux 64 n

/-- `balance as f64` (main.rs:162): the exact integer value of the IEEE-754
binary64 double nearest to the u64 lamport balance (round to nearest, ties
to even).  Balances below `2^53` convert exactly; a larger balance rounds
to a multiple of its ulp `2^(bitLen n - 53)`.  Everything the route then
shows for this balance — the division by `1e9` and the `Display`
printing — is a function of this converted value alone. -/
def lamportsToF64 (n : ℕ) : ℕ :=
  if n < 2 ^ 53 then n
  else
    let ulp := 2 ^ (bitLen n - 53)
    let q := n / ulp
    let r := n % ulp
    if 2 * r < ulp then q * ulp
    else if ulp < 2 * r then (q + 1) * ulp
    else if q % 2 = 0 then q * ulp else (q + 1) * ulp

/-- The five request handlers defined in main.rs (each carries an
actix-web route attribute). -/
inductive Handler where
  | ethereum
  | polygon
  | bsc
  | solana
  | solanaBalances
deriving DecidableEq

/-- The route attribute (`#[get("...")]`) attached to each handler:
main.rs:19, 38, 57, 75 and 146. -/
def handlerRoute : Handler → String
  | .ethereum => "/ethereum/{tx_hash}"
  | .polygon => "/polygon/{tx_hash}"
  | .bsc => "/bsc/{tx_hash}"
  | .solana => "/solana/{tx_hash}"
  | .solanaBalances => "/solana-balances"

/-- The services registered on the actix-web `App` in `main`
(main.rs:96-102): exactly the four `.service(...)` calls, in order. -/
def appServices : List Handler :=
  [.ethereum, .polygon, .bsc, .solana]

/-- The routes reachable in the running application: the route attributes
of the registered services. -/
def registeredRoutes : List String := appServices.map handlerRoute

/-! ### Shared sample worlds used by witnesses -/

/-- A sample JSON payload. -/
def sampleValue : Value := .obj [("hash", .str "0xabc"), ("blockNumber", .num 7)]

/-- A sample environment with all three API keys set. -/
def sampleEnv : Env := fun name =>
  if name = "ETHERSCAN_API_KEY" then some "EK"
  else if name = "POLYGONSCAN_API_KEY" then some "PK"
  else if name = "BSCSCAN_API_KEY" then some "BK"
  else none

/-- A sample environment agreeing with `sampleEnv` on the three API keys
but differing elsewhere. -/
def sampleEnvVariant : Env := fun name =>
  if name = "UNRELATED_VAR" then some "other" else sampleEnv name

/-- An environment with every variable unset. -/
def emptyEnv : Env := fun _ => none

/-- An upstream world where every GET succeeds with `sampleValue`. -/
def sampleUpstreamOk : Upstream := fun _ => .ok sampleValue

/-- An upstream world where every GET fails with a network error. -/
def sampleUpstreamErr : Upstream := fun _ => .error "connection refused"

/-- A Solana RPC world where signature parsing always fails. -/
def sampleSolanaRpcParseFail : SolanaRpc Unit Unit where
  parseSignature := fun _ => .error "string decoded to wrong size for signature"
  getTransaction := fun _ => .ok ()
  toJson := fun _ => .ok .null

/-- A Solana RPC world where every step succeeds. -/
def sampleSolanaRpcOk : SolanaRpc Unit Unit where
  parseSignature := fun _ => .ok ()
  getTransaction := fun _ => .ok ()
  toJson := fun _ => .ok sampleValue

/-- A balance RPC world with one recognised key, holding 1.5 SOL. -/
def sampleBalanceRpc : BalanceRpc Unit where
  parsePubkey := fun s =>
    if s = "goodkey" then .ok () else .error "Invalid Base58 string"
  getBalance := fun _ => .ok 1500000000

/-! ### Shared helper lemmas -/

/-- The balances loop extends its accumulator by the per-key entries of the
remaining keys, in input order. -/
theorem balances_go_eq {Pk : Type} (rpc : BalanceRpc Pk)
    (keys acc : List String) :
    get_solana_balances.go rpc keys acc =
      acc ++ keys.filterMap (entryFor rpc) := by
  induction keys generalizing acc with
  | nil => simp [get_solana_balances.go]
  | cons k rest ih =>
    rw [get_solana_balances.go]
    cases h : entryFor rpc k <;> simp [h, ih]

/-- The balance fetcher is the order-preserving `filterMap` of the per-key
entry function over the input keys. -/
theorem balances_eq_filterMap {Pk : Type} (rpc : BalanceRpc Pk)
    (public_keys : List String) :
    get_solana_balances rpc public_keys =
      public_keys.filterMap (entryFor rpc) := by
  rw [get_solana_balances, balances_go_eq]
  simp

/-! ### Claim theorems -/

/-- C1: the claim says all five routes — `/ethereum/{tx_hash}`,
`/polygon/{tx_hash}`, `/bsc/{tx_hash}`, `/solana/{tx_hash}` and
`/solana-balances` — are registered and reachable.  In `main`
(main.rs:96-102) only four `.service` calls appear; the
`get_solana_balances` handler carries the `/solana-balances` route
attribute (main.rs:146) but is never registered, so that route is
unreachable in the running application. -/
theorem solana_balances_route_not_registered :
    registeredRoutes =
      ["/ethereum/{tx_hash}", "/polygon/{tx_hash}", "/bsc/{tx_hash}",
        "/solana/{tx_hash}"] ∧
    handlerRoute .solanaBalances = "/solana-balances" ∧
    "/solana-balances" ∉ registeredRoutes := by
  refine ⟨rfl, rfl, ?_⟩
  decide

/-- C2: with its API key set, each of the Ethereum, Polygon and BSC routes,
on an upstream answering JSON payload `P` at the URL it builds, returns
HTTP 200 with envelope status_code 200, message "<Chain> Transaction
found", and `data` equal to `P` verbatim. -/
theorem scan_routes_success_envelope :
    (∀ (env : Env) (up : Upstream) (path key : String) (P : Value),
      env "ETHERSCAN_API_KEY" = some key →
      up (ethereum_tx_url path key) = .ok P →
      get_ethereum env up path =
        some ⟨200, ⟨200, "Ethereum Transaction found", some P⟩⟩) ∧
    (∀ (env : Env) (up : Upstream) (path key : String) (P : Value),
      env "POLYGONSCAN_API_KEY" = some key →
      up (polygon_tx_url path key) = .ok P →
      get_polygon env up path =
        some ⟨200, ⟨200, "Polygon Transaction found", some P⟩⟩) ∧
    (∀ (env : Env) (up : Upstream) (path key : String) (P : Value),
      env "BSCSCAN_API_KEY" = some key →
      up (bsc_tx_url path key) = .ok P →
      get_bsc env up path =
        some ⟨200, ⟨200, "BSC Transaction found", some P⟩⟩) := by
  refine ⟨?_, ?_, ?_⟩ <;> intro env up path key P henv hup <;>
    simp [get_ethereum, get_polygon, get_bsc, get_ethereum_transaction,
      get_polygon_transaction, get_bsc_transaction, henv, hup]

/-- C2 witness: concrete success responses in the sample worlds. -/
theorem scan_routes_success_envelope_witness :
    get_ethereum sampleEnv sampleUpstreamOk "0xabc" =
      some ⟨200, ⟨200, "Ethereum Transaction found", some sampleValue⟩⟩ ∧
    get_polygon sampleEnv sampleUpstreamOk "0xabc" =
      some ⟨200, ⟨200, "Polygon Transaction found", some sampleValue⟩⟩ ∧
    get_bsc sampleEnv sampleUpstreamOk "0xabc" =
      some ⟨200, ⟨200, "BSC Transaction found", some sampleValue⟩⟩ :=
  ⟨scan_routes_success_envelope.1 sampleEnv sampleUpstreamOk "0xabc" "EK"
      sampleValue rfl rfl,
    scan_routes_success_envelope.2.1 sampleEnv sampleUpstreamOk "0xabc" "PK"
      sampleValue rfl rfl,
    scan_routes_success_envelope.2.2 sampleEnv sampleUpstreamOk "0xabc" "BK"
      sampleValue rfl rfl⟩

/-- C3: on any upstream failure (network error or non-JSON body for the
three explorer routes; parse, RPC or serialization failure for the Solana
route), each of the four scan/transaction routes returns HTTP 500 whose
envelope has status_code 500, data null, and message equal to the error's
textual description — non-empty whenever that description is. -/
theorem scan_routes_failure_envelope :
    (∀ (env : Env) (up : Upstream) (path key e : String),
      env "ETHERSCAN_API_KEY" = some key →
      up (ethereum_tx_url path key) = .error e → e ≠ "" →
      ∃ r, get_ethereum env up path = some r ∧ r.status = 500 ∧
        r.body.status_code = 500 ∧ r.body.data = none ∧
        r.body.message = e ∧ r.body.message ≠ "") ∧
    (∀ (env : Env) (up : Upstream) (path key e : String),
      env "POLYGONSCAN_API_KEY" = some key →
      up (polygon_tx_url path key) = .error e → e ≠ "" →
      ∃ r, get_polygon env up path = some r ∧ r.status = 500 ∧
        r.body.status_code = 500 ∧ r.body.data = none ∧
        r.body.message = e ∧ r.body.message ≠ "") ∧
    (∀ (env : Env) (up : Upstream) (path key e : String),
      env "BSCSCAN_API_KEY" = some key →
      up (bsc_tx_url path key) = .error e → e ≠ "" →
      ∃ r, get_bsc env up path = some r ∧ r.status = 500 ∧
        r.body.status_code = 500 ∧ r.body.data = none ∧
        r.body.message = e ∧ r.body.message ≠ "") ∧
    (∀ (Sig Tx : Type) (rpc : SolanaRpc Sig Tx) (path e : String),
      (get_solana_transaction rpc path).result = .error e → e ≠ "" →
      get_solana rpc path = ⟨500, ⟨500, e, none⟩⟩ ∧
      (get_solana rpc path).body.message ≠ "") := by
  refine ⟨?_, ?_, ?_, ?_⟩
  · intro env up path key e henv hup hne
    exact ⟨⟨500, ⟨500, e, none⟩⟩,
      by simp [get_ethereum, get_ethereum_transaction, henv, hup, hne]⟩
  · intro env up path key e henv hup hne
    exact ⟨⟨500, ⟨500, e, none⟩⟩,
      by simp [get_polygon, get_polygon_transaction, henv, hup, hne]⟩
  · intro env up path key e henv hup hne
    exact ⟨⟨500, ⟨500, e, none⟩⟩,
      by simp [get_bsc, get_bsc_transaction, henv, hup, hne]⟩
  · intro Sig Tx rpc path e herr hne
    constructor
    · rw [get_solana, herr]
    · rw [get_solana, herr]
      exact hne

/-- C3 witness: concrete failure responses in the sample worlds. -/
theorem scan_routes_failure_envelope_witness :
    (∃ r, get_ethereum sampleEnv sampleUpstreamErr "0xabc" = some r ∧
      r.status = 500 ∧ r.body.status_code = 500 ∧ r.body.data = none ∧
      r.body.message = "connection refused" ∧ r.body.message ≠ "") ∧
    (∃ r, get_polygon sampleEnv sampleUpstreamErr "0xabc" = some r ∧
      r.status = 500 ∧ r.body.status_code = 500 ∧ r.body.data = none ∧
      r.body.message = "connection refused" ∧ r.body.message ≠ "") ∧
    (∃ r, get_bsc sampleEnv sampleUpstreamErr "0xabc" = some r ∧
      r.status = 500 ∧ r.body.status_code = 500 ∧ r.body.data = none ∧
      r.body.message = "connection refused" ∧ r.body.message ≠ "") ∧
    (get_solana sampleSolanaRpcParseFail "sig" =
      ⟨500, ⟨500, "string decoded to wrong size for signature", none⟩⟩ ∧
     (get_solana sampleSolanaRpcParseFail "sig").body.message ≠ "") :=
  ⟨scan_routes_failure_envelope.1 sampleEnv sampleUpstreamErr "0xabc" "EK"
      "connection refused" rfl rfl (by decide),
    scan_routes_failure_envelope.2.1 sampleEnv sampleUpstreamErr "0xabc" "PK"
      "connection refused" rfl rfl (by decide),
    scan_routes_failure_envelope.2.2.1 sampleEnv sampleUpstreamErr "0xabc" "BK"
      "connection refused" rfl rfl (by decide),
    scan_routes_failure_envelope.2.2.2 Unit Unit sampleSolanaRpcParseFail
      "sig" "string decoded to wrong size for signature" rfl (by decide)⟩

/-- C4: for every transaction hash and API key, the three explorer clients
build GET URLs that target their chain-specific hosts
(api.etherscan.io, api.polygonscan.com, api.bscscan.com) followed by the
identical query shape
`module=proxy&action=eth_getTransactionByHash&txhash=<hash>&apikey=<key>`. -/
theorem explorer_urls_shape (tx_hash api_key : String) :
    ethereum_tx_url tx_hash api_key =
      "https://api.etherscan.io/api?" ++ scan_query_shape tx_hash api_key ∧
    polygon_tx_url tx_hash api_key =
      "https://api.polygonscan.com/api?" ++ scan_query_shape tx_hash api_key ∧
    bsc_tx_url tx_hash api_key =
      "https://api.bscscan.com/api?" ++ scan_query_shape tx_hash api_key := by
  refine ⟨?_, ?_, ?_⟩ <;>
  · simp only [ethereum_tx_url, polygon_tx_url, bsc_tx_url, scan_query_shape,
      ← String.append_assoc]
    rfl

/-- C5: when the signature string does not parse, the Solana transaction
fetcher fails with the parse error without issuing any RPC call, and the
`/solana/{tx_hash}` route returns HTTP 500 carrying the parse error's
description as its message. -/
theorem solana_parse_failure_no_rpc (Sig Tx : Type) (rpc : SolanaRpc Sig Tx)
    (tx_hash e : String) (hparse : rpc.parseSignature tx_hash = .error e) :
    get_solana_transaction rpc tx_hash = ⟨.error e, 0⟩ ∧
    get_solana rpc tx_hash = ⟨500, ⟨500, e, none⟩⟩ := by
  have hfetch : get_solana_transaction rpc tx_hash = ⟨.error e, 0⟩ := by
    rw [get_solana_transaction, hparse]
  exact ⟨hfetch, by rw [get_solana, hfetch]⟩

/-- C5 witness: the sample world whose signature parser always fails. -/
theorem solana_parse_failure_no_rpc_witness :
    get_solana_transaction sampleSolanaRpcParseFail "not-a-signature" =
      ⟨.error "string decoded to wrong size for signature", 0⟩ ∧
    get_solana sampleSolanaRpcParseFail "not-a-signature" =
      ⟨500, ⟨500, "string decoded to wrong size for signature", none⟩⟩ :=
  solana_parse_failure_no_rpc Unit Unit sampleSolanaRpcParseFail
    "not-a-signature" "string decoded to wrong size for signature" rfl

/-- C6: the Solana balance fetcher's result is exactly the order-preserving
`filterMap` of the per-key entry over the input keys, and a key contributes
an entry precisely when it parses, its balance RPC call succeeds, and the
balance is strictly positive — the entry then being
`"<key>: <amount> SOL"`. -/
theorem balances_exactly_positive_in_order :
    (∀ (Pk : Type) (rpc : BalanceRpc Pk) (public_keys : List String),
      get_solana_balances rpc public_keys =
        public_keys.filterMap (entryFor rpc)) ∧
    (∀ (Pk : Type) (rpc : BalanceRpc Pk) (k s : String),
      entryFor rpc k = some s ↔
        ∃ pk balance, rpc.parsePubkey k = .ok pk ∧
          rpc.getBalance pk = .ok balance ∧ 0 < balance ∧
          s = k ++ ": " ++ formatSol balance ++ " SOL") := by
  refine ⟨fun Pk rpc keys => balances_eq_filterMap rpc keys, ?_⟩
  intro Pk rpc k s
  cases hp : rpc.parsePubkey k with
  | error e => simp [entryFor, hp]
  | ok pk =>
    cases hb : rpc.getBalance pk with
    | error e => simp [entryFor, hp, hb]
    | ok balance =>
      by_cases hpos : 0 < balance <;>
        simp [entryFor, hp, hb, hpos, eq_comm]

/-- C7 counterexample: the claim says the amount shown is the lamport
balance divided by `10^9` exactly, for every balance.  The route computes
`balance as f64 / 1e9` (main.rs:162), so the displayed amount is a
function of `lamportsToF64 balance` alone — and that conversion already
identifies the two distinct balances `2^53` and `2^53 + 1` lamports
(~9.0e6 SOL, within Solana's supply), whose exact quotients by `10^9`
differ.  The displayed amount therefore equals the exact quotient for at
most one of these two balances: the claim fails at `2^53 + 1` or at
`2^53` lamports. -/
theorem balance_f64_rounding_counterexample :
    lamportsToF64 (2 ^ 53 + 1) = lamportsToF64 (2 ^ 53) ∧
    2 ^ 53 + 1 ≠ 2 ^ 53 ∧
    ((2 ^ 53 + 1 : ℚ) / 10 ^ 9 ≠ (2 ^ 53 : ℚ) / 10 ^ 9) := by
  refine ⟨by decide, by decide, ?_⟩
  intro h
  rw [div_eq_div_iff (by norm_num) (by norm_num)] at h
  norm_num at h

/-- C7 amended: the balance amount is computed as the lamport balance
divided by `10^9` in 64-bit floating point, not exactly — the u64→f64
conversion is exact for every balance below `2^53` (first conjunct) but
collapses some larger balances (see the counterexample); at the claimed
instance the computation is exact, and a key whose balance is 1500000000
lamports is reported as `"<key>: 1.5 SOL"`. -/
theorem balance_amount_f64_div_1e9 :
    (∀ n : ℕ, n < 2 ^ 53 → lamportsToF64 n = n) ∧
    formatSol 1500000000 = "1.5" ∧
    (∀ (Pk : Type) (rpc : BalanceRpc Pk) (k : String) (pk : Pk),
      rpc.parsePubkey k = .ok pk →
      rpc.getBalance pk = .ok 1500000000 →
      entryFor rpc k = some (k ++ ": 1.5 SOL")) := by
  refine ⟨?_, by decide, ?_⟩
  · intro n h
    simp only [lamportsToF64]
    rw [if_pos h]
  · intro Pk rpc k pk hp hb
    have hfmt : formatSol 1500000000 = "1.5" := by decide
    simp only [entryFor, hp, hb, hfmt]
    rw [if_pos (by norm_num : (1500000000 : ℕ) > 0)]
    rw [String.append_assoc, String.append_assoc]
    rfl

/-- C7 witness: the conversion is exact at a small balance, and in the
sample balance world the recognised key holding 1500000000 lamports is
reported as `"goodkey: 1.5 SOL"`. -/
theorem balance_amount_f64_div_1e9_witness :
    lamportsToF64 1500000000 = 1500000000 ∧
    entryFor sampleBalanceRpc "goodkey" = some ("goodkey" ++ ": 1.5 SOL") :=
  ⟨balance_amount_f64_div_1e9.1 1500000000 (by decide),
    balance_amount_f64_div_1e9.2.2 Unit sampleBalanceRpc "goodkey" ()
      rfl rfl⟩

/-- C8: when the route's required environment variable is unset, the
Ethereum, Polygon and BSC handlers abort at the configuration read (the
`expect` panic, modelled as `none`) and produce no envelope at all,
whatever the upstream would have answered. -/
theorem missing_api_key_aborts :
    (∀ (env : Env) (up : Upstream) (path : String),
      env "ETHERSCAN_API_KEY" = none → get_ethereum env up path = none) ∧
    (∀ (env : Env) (up : Upstream) (path : String),
      env "POLYGONSCAN_API_KEY" = none → get_polygon env up path = none) ∧
    (∀ (env : Env) (up : Upstream) (path : String),
      env "BSCSCAN_API_KEY" = none → get_bsc env up path = none) := by
  refine ⟨?_, ?_, ?_⟩ <;> intro env up path henv <;>
    simp [get_ethereum, get_polygon, get_bsc, henv]

/-- C8 witness: with an empty environment, all three routes abort even
though the upstream would answer. -/
theorem missing_api_key_aborts_witness :
    get_ethereum emptyEnv sampleUpstreamOk "0xabc" = none ∧
    get_polygon emptyEnv sampleUpstreamOk "0xabc" = none ∧
    get_bsc emptyEnv sampleUpstreamOk "0xabc" = none :=
  ⟨missing_api_key_aborts.1 emptyEnv sampleUpstreamOk "0xabc" rfl,
    missing_api_key_aborts.2.1 emptyEnv sampleUpstreamOk "0xabc" rfl,
    missing_api_key_aborts.2.2 emptyEnv sampleUpstreamOk "0xabc" rfl⟩

/-- C9: every lookup is deterministic in its input, its configuration and
the upstream's answers: two runs of the same handler on the same path,
with environments agreeing on the route's key and upstreams (or RPC
worlds) answering identically, produce identical responses. -/
theorem lookups_deterministic :
    (∀ (env env2 : Env) (up up2 : Upstream) (path : String),
      env "ETHERSCAN_API_KEY" = env2 "ETHERSCAN_API_KEY" →
      (∀ url, up url = up2 url) →
      get_ethereum env up path = get_ethereum env2 up2 path) ∧
    (∀ (env env2 : Env) (up up2 : Upstream) (path : String),
      env "POLYGONSCAN_API_KEY" = env2 "POLYGONSCAN_API_KEY" →
      (∀ url, up url = up2 url) →
      get_polygon env up path = get_polygon env2 up2 path) ∧
    (∀ (env env2 : Env) (up up2 : Upstream) (path : String),
      env "BSCSCAN_API_KEY" = env2 "BSCSCAN_API_KEY" →
      (∀ url, up url = up2 url) →
      get_bsc env up path = get_bsc env2 up2 path) ∧
    (∀ (Sig Tx : Type) (rpc rpc2 : SolanaRpc Sig Tx) (path : String),
      (∀ s, rpc.parseSignature s = rpc2.parseSignature s) →
      (∀ sig, rpc.getTransaction sig = rpc2.getTransaction sig) →
      (∀ tx, rpc.toJson tx = rpc2.toJson tx) →
      get_solana rpc path = get_solana rpc2 path) ∧
    (∀ (Pk : Type) (rpc rpc2 : BalanceRpc Pk) (public_keys : List String),
      (∀ s, rpc.parsePubkey s = rpc2.parsePubkey s) →
      (∀ pk, rpc.getBalance pk = rpc2.getBalance pk) →
      get_solana_balances rpc public_keys =
        get_solana_balances rpc2 public_keys) := by
  refine ⟨?_, ?_, ?_, ?_, ?_⟩
  · intro env env2 up up2 path henv hup
    obtain rfl : up = up2 := funext hup
    rw [get_ethereum, get_ethereum, henv]
  · intro env env2 up up2 path henv hup
    obtain rfl : up = up2 := funext hup
    rw [get_polygon, get_polygon, henv]
  · intro env env2 up up2 path henv hup
    obtain rfl : up = up2 := funext hup
    rw [get_bsc, get_bsc, henv]
  · intro Sig Tx rpc rpc2 path hparse hget hjson
    obtain ⟨p1, g1, j1⟩ := rpc
    obtain ⟨p2, g2, j2⟩ := rpc2
    obtain rfl : p1 = p2 := funext hparse
    obtain rfl : g1 = g2 := funext hget
    obtain rfl : j1 = j2 := funext hjson
    rfl
  · intro Pk rpc rpc2 public_keys hparse hbal
    obtain ⟨p1, b1⟩ := rpc
    obtain ⟨p2, b2⟩ := rpc2
    obtain rfl : p1 = p2 := funext hparse
    obtain rfl : b1 = b2 := funext hbal
    rfl

/-- C9 witness: the sample environment and a variant differing only on an
unrelated variable yield identical responses on every route, and the
sample RPC worlds agree with themselves. -/
theorem lookups_deterministic_witness :
    get_ethereum sampleEnv sampleUpstreamOk "0xabc" =
      get_ethereum sampleEnvVariant sampleUpstreamOk "0xabc" ∧
    get_polygon sampleEnv sampleUpstreamOk "0xabc" =
      get_polygon sampleEnvVariant sampleUpstreamOk "0xabc" ∧
    get_bsc sampleEnv sampleUpstreamOk "0xabc" =
      get_bsc sampleEnvVariant sampleUpstreamOk "0xabc" ∧
    get_solana sampleSolanaRpcOk "sig" = get_solana sampleSolanaRpcOk "sig" ∧
    get_solana_balances sampleBalanceRpc ["goodkey"] =
      get_solana_balances sampleBalanceRpc ["goodkey"] :=
  ⟨lookups_deterministic.1 sampleEnv sampleEnvVariant sampleUpstreamOk
      sampleUpstreamOk "0xabc" rfl (fun _ => rfl),
    lookups_deterministic.2.1 sampleEnv sampleEnvVariant sampleUpstreamOk
      sampleUpstreamOk "0xabc" rfl (fun _ => rfl),
    lookups_deterministic.2.2.1 sampleEnv sampleEnvVariant sampleUpstreamOk
      sampleUpstreamOk "0xabc" rfl (fun _ => rfl),
    lookups_deterministic.2.2.2.1 Unit Unit sampleSolanaRpcOk
      sampleSolanaRpcOk "sig" (fun _ => rfl) (fun _ => rfl) (fun _ => rfl),
    lookups_deterministic.2.2.2.2 Unit sampleBalanceRpc sampleBalanceRpc
      ["goodkey"] (fun _ => rfl) (fun _ => rfl)⟩

/-- C10: with its configuration present, each of the four scan/transaction
routes always answers, the HTTP status always equals the envelope's
status_code, and the only outcomes are 200 with `data = some payload` and
500 with `data = none`. -/
theorem envelope_status_matches_http :
    (∀ (env : Env) (up : Upstream) (path key : String),
      env "ETHERSCAN_API_KEY" = some key →
      ∃ r, get_ethereum env up path = some r ∧
        r.status = r.body.status_code ∧
        ((r.status = 200 ∧ ∃ P, r.body.data = some P) ∨
          (r.status = 500 ∧ r.body.data = none))) ∧
    (∀ (env : Env) (up : Upstream) (path key : String),
      env "POLYGONSCAN_API_KEY" = some key →
      ∃ r, get_polygon env up path = some r ∧
        r.status = r.body.status_code ∧
        ((r.status = 200 ∧ ∃ P, r.body.data = some P) ∨
          (r.status = 500 ∧ r.body.data = none))) ∧
    (∀ (env : Env) (up : Upstream) (path key : String),
      env "BSCSCAN_API_KEY" = some key →
      ∃ r, get_bsc env up path = some r ∧
        r.status = r.body.status_code ∧
        ((r.status = 200 ∧ ∃ P, r.body.data = some P) ∨
          (r.status = 500 ∧ r.body.data = none))) ∧
    (∀ (Sig Tx : Type) (rpc : SolanaRpc Sig Tx) (path : String),
      (get_solana rpc path).status =
        (get_solana rpc path).body.status_code ∧
      (((get_solana rpc path).status = 200 ∧
          ∃ P, (get_solana rpc path).body.data = some P) ∨
        ((get_solana rpc path).status = 500 ∧
          (get_solana rpc path).body.data = none))) := by
  refine ⟨?_, ?_, ?_, ?_⟩
  · intro env up path key henv
    rw [get_ethereum, henv]
    simp only [get_ethereum_transaction]
    cases up (ethereum_tx_url path key) with
    | ok data => exact ⟨_, rfl, rfl, .inl ⟨rfl, data, rfl⟩⟩
    | error e => exact ⟨_, rfl, rfl, .inr ⟨rfl, rfl⟩⟩
  · intro env up path key henv
    rw [get_polygon, henv]
    simp only [get_polygon_transaction]
    cases up (polygon_tx_url path key) with
    | ok data => exact ⟨_, rfl, rfl, .inl ⟨rfl, data, rfl⟩⟩
    | error e => exact ⟨_, rfl, rfl, .inr ⟨rfl, rfl⟩⟩
  · intro env up path key henv
    rw [get_bsc, henv]
    simp only [get_bsc_transaction]
    cases up (bsc_tx_url path key) with
    | ok data => exact ⟨_, rfl, rfl, .inl ⟨rfl, data, rfl⟩⟩
    | error e => exact ⟨_, rfl, rfl, .inr ⟨rfl, rfl⟩⟩
  · intro Sig Tx rpc path
    rw [get_solana]
    cases (get_solana_transaction rpc path).result with
    | ok data => exact ⟨rfl, .inl ⟨rfl, data, rfl⟩⟩
    | error e => exact ⟨rfl, .inr ⟨rfl, rfl⟩⟩

/-- C10 witness: concrete instances of the invariant, on a succeeding
upstream for the explorer routes and a failing parse for Solana. -/
theorem envelope_status_matches_http_witness :
    (∃ r, get_ethereum sampleEnv sampleUpstreamOk "0xabc" = some r ∧
      r.status = r.body.status_code ∧
      ((r.status = 200 ∧ ∃ P, r.body.data = some P) ∨
        (r.status = 500 ∧ r.body.data = none))) ∧
    (∃ r, get_polygon sampleEnv sampleUpstreamErr "0xabc" = some r ∧
      r.status = r.body.status_code ∧
      ((r.status = 200 ∧ ∃ P, r.body.data = some P) ∨
        (r.status = 500 ∧ r.body.data = none))) ∧
    (∃ r, get_bsc sampleEnv sampleUpstreamOk "0xabc" = some r ∧
      r.status = r.body.status_code ∧
      ((r.status = 200 ∧ ∃ P, r.body.data = some P) ∨
        (r.status = 500 ∧ r.body.data = none))) ∧
    ((get_solana sampleSolanaRpcParseFail "sig").status =
      (get_solana sampleSolanaRpcParseFail "sig").body.status_code ∧
      (((get_solana sampleSolanaRpcParseFail "sig").status = 200 ∧
          ∃ P, (get_solana sampleSolanaRpcParseFail "sig").body.data = some P) ∨
        ((get_solana sampleSolanaRpcParseFail "sig").status = 500 ∧
          (get_solana sampleSolanaRpcParseFail "sig").body.data = none))) :=
  ⟨envelope_status_matches_http.1 sampleEnv sampleUpstreamOk "0xabc" "EK" rfl,
    envelope_status_matches_http.2.1 sampleEnv sampleUpstreamErr "0xabc" "PK"
      rfl,
    envelope_status_matches_http.2.2.1 sampleEnv sampleUpstreamOk "0xabc" "BK"
      rfl,
    envelope_status_matches_http.2.2.2 Unit Unit sampleSolanaRpcParseFail
      "sig"⟩

end ScansValidator
